import Mathlib

/-!
Verification development for the IOCCC submit-tool file-based record store
(`iocccsubmit/ioccc_common.py` and `bin/stage.py`), as a shallow embedding.

JSON scalar values are modelled by `JVal`; JSON objects by association lists
(`Dict`) with first-occurrence lookup, matching Python dict semantics for the
unique-key documents the store manipulates.  Filesystem and OS effects
(advisory locks, file reads, renames) are modelled by explicit state or by
oracle records whose fields stand for the outcome of one external call; the
control flow around those calls is translated from the Python source.
-/

namespace IocccSubmit

/-- JSON scalar value as held in a Python dict loaded with `json.load`. -/
inductive JVal where
  | null : JVal
  | bool (b : Bool) : JVal
  | int (n : Int) : JVal
  | str (s : String) : JVal
  deriving DecidableEq, Repr

/-- Python truthiness (`if not v`) for the scalar values the store tests. -/
def JVal.falsy : JVal → Bool
  | .null => true
  | .bool b => !b
  | .int n => n == 0
  | .str s => s == ""

/-- A JSON object: association list keyed by strings, first occurrence wins. -/
abbrev Dict := List (String × JVal)

/-- Lookup of `d[k]` returning `none` when the key is absent. -/
def getKey? (d : Dict) (k : String) : Option JVal :=
  match d with
  | [] => none
  | (k0, v0) :: t => if k0 = k then some v0 else getKey? t k

/-- Python `k in d`. -/
def hasKey (d : Dict) (k : String) : Bool :=
  (getKey? d k).isSome

/-- Python `d[k] = v`: replace the value at an existing key in place,
otherwise append the new key at the end (insertion order). -/
def setKey (d : Dict) (k : String) (v : JVal) : Dict :=
  match d with
  | [] => [(k, v)]
  | (k0, v0) :: t => if k0 = k then (k0, v) :: t else (k0, v0) :: setKey t k v

/-- Python truthiness of `d[k]` where the key is known to be present
(`if d[k]:`); an absent key would raise `KeyError`, which the callers below
only reach after the dict passed validation, so absence is mapped to `false`. -/
def truthyAt (d : Dict) (k : String) : Bool :=
  match getKey? d k with
  | some v => !v.falsy
  | none => false

/-! ### Constants from `ioccc_common.py` -/

def NO_COMMENT_VALUE : String :=
  "mandatory comment: because comments were removed from the original JSON spec"

def SLOT_VERSION_VALUE : String := "1.2 2025-01-26"

def PASSWORD_VERSION_VALUE : String := "1.3 2025-02-12"

def STATE_VERSION_VALUE : String := "1.2 2025-01-26"

def MIN_USERNAME_LENGTH : Nat := 1

def MAX_USERNAME_LENGTH : Nat := 40

def MAX_SUBMIT_SLOT : Int := 9

def SHA256_HEXLEN : Nat := 64

/-- Default production application directory (`APPDIR = "/var/ioccc"`);
`change_startup_appdir` can move it, which only renames the path strings. -/
def APPDIR : String := "/var/ioccc"

def USERS_DIR : String := APPDIR ++ "/users"

def PW_LOCK : String := APPDIR ++ "/etc/iocccpasswd.lock"

def STATE_FILE_LOCK : String := APPDIR ++ "/etc/state.lock"

def STAGED_DIR : String := APPDIR ++ "/staged"

def UNEXPECTED_DIR : String := APPDIR ++ "/unexpected"

/-! ### Canonical firewall checks -/

/-- Python `s.startswith(p)` (character-level, as Python strings are). -/
def strStartsWith (s p : String) : Bool :=
  p.data.isPrefixOf s.data

/-- Python `s.endswith(p)`. -/
def strEndsWith (s p : String) : Bool :=
  p.data.isSuffixOf s.data

/-- Character class `[0-9A-Za-z._+-]` of `POSIX_SAFE_RE`. -/
def posixSafeTailChar (c : Char) : Bool :=
  c.isAlphanum || c == '.' || c == '_' || c == '+' || c == '-'

/-- Body of `POSIX_SAFE_RE = "^[0-9A-Za-z][0-9A-Za-z._+-]*$"` applied to a
whole character list. -/
def posixSafeCore : List Char → Bool
  | [] => false
  | c :: t => c.isAlphanum && t.all posixSafeTailChar

/-- Python `re.match(POSIX_SAFE_RE, u)`: the `$` anchor also matches just
before one trailing newline, which we reproduce. -/
def posixSafeMatch (u : String) : Bool :=
  posixSafeCore u.data || (strEndsWith u "\n" && posixSafeCore u.data.dropLast)

/-- `check_username_arg(username, me)`: type and `parent` checks are carried
by the Lean types; the length window and the POSIX-safe pattern remain. -/
def checkUsernameArg (u : String) : Bool :=
  !(u.length == 0) &&
  !(u.length < MIN_USERNAME_LENGTH) &&
  !(u.length > MAX_USERNAME_LENGTH) &&
  posixSafeMatch u

/-- `check_slot_num_arg(slot_num)`; the `isinstance(slot_num, int)` check is
carried by the Lean type. -/
def checkSlotNumArg (n : Int) : Bool :=
  !(n < 0 || n > MAX_SUBMIT_SLOT)

/-! ### Path helpers -/

/-- `return_user_dir_path(username)`. -/
def returnUserDirPath (u : String) : Option String :=
  if checkUsernameArg u then some (USERS_DIR ++ "/" ++ u) else none

/-- `return_slot_dir_path(username, slot_num)`. -/
def returnSlotDirPath (u : String) (n : Int) : Option String :=
  if !checkUsernameArg u then none
  else if !checkSlotNumArg n then none
  else match returnUserDirPath u with
    | none => none
    | some userDir => some (userDir ++ "/" ++ toString n)

/-- `return_slot_lockfile(username, slot_num)`: `<slot_dir>/lock`. -/
def returnSlotLockfile (u : String) (n : Int) : Option String :=
  match returnSlotDirPath u n with
  | none => none
  | some slotDir => some (slotDir ++ "/lock")

/-- `return_submit_filename(slot_dict, username, slot_num)`: the slot's
`filename` value when it is a truthy string, else `None`.  (For a non-dict
`slot_dict` the source returns an error string instead of `None`; that arm is
excluded by typing.) -/
def returnSubmitFilename (d : Dict) (u : String) (n : Int) : Option String :=
  if !checkUsernameArg u then none
  else if !checkSlotNumArg n then none
  else match getKey? d "filename" with
    | none => none
    | some v =>
      if v.falsy then none
      else match v with
        | .str s => some s
        | _ => none

/-- `return_submit_path(slot_dict, username, slot_num)`: `<slot_dir>/<filename>`. -/
def returnSubmitPath (d : Dict) (u : String) (n : Int) : Option String :=
  if !checkUsernameArg u then none
  else if !checkSlotNumArg n then none
  else match returnSlotDirPath u n with
    | none => none
    | some slotDir =>
      match getKey? d "filename" with
      | none => none
      | some v =>
        if v.falsy then none
        else match v with
          | .str s => some (slotDir ++ "/" ++ s)
          | _ => none

/-! ### Datetime format model -/

/-- Success of `datetime.datetime.strptime(s, DATETIME_USEC_FORMAT)` with
`DATETIME_USEC_FORMAT = "%Y-%m-%d %H:%M:%S.%f UTC"`, modelled on the
canonical serialization the system itself writes: four-digit year, two-digit
month/day/hour/minute/second, one to six fraction digits, literal " UTC". -/
def parsesDatetimeUsec (s : String) : Bool :=
  match s.data with
  | y1 :: y2 :: y3 :: y4 :: '-' :: m1 :: m2 :: '-' :: d1 :: d2 :: ' ' ::
    h1 :: h2 :: ':' :: mi1 :: mi2 :: ':' :: s1 :: s2 :: '.' :: rest =>
    let digits2 (a b : Char) : Option Nat :=
      if a.isDigit && b.isDigit then some ((a.toNat - 48) * 10 + (b.toNat - 48))
      else none
    ([y1, y2, y3, y4].all Char.isDigit) &&
    (match digits2 m1 m2, digits2 d1 d2, digits2 h1 h2,
           digits2 mi1 mi2, digits2 s1 s2 with
     | some mo, some da, some ho, some mi, some se =>
       decide (1 ≤ mo) && decide (mo ≤ 12) && decide (1 ≤ da) &&
       decide (da ≤ 31) && decide (ho ≤ 23) && decide (mi ≤ 59) &&
       decide (se ≤ 61) &&
       (let frac := rest.take (rest.length - 4)
        let tail := rest.drop (rest.length - 4)
        decide (1 ≤ frac.length) && decide (frac.length ≤ 6) &&
        frac.all Char.isDigit && tail == [' ', 'U', 'T', 'C'])
     | _, _, _, _, _ => false)
  | _ => false

/-! ### Slot record validation -/

/-- Timestamp component of the slot filename pattern: `[1-9][0-9]{9,}`. -/
def validEpochPart : List Char → Bool
  | [] => false
  | c :: t => c.isDigit && !(c == '0') && t.all Char.isDigit && decide (9 ≤ t.length)

/-- `re.match(f'^submit\\.{username}-{slot_num}\\.[1-9][0-9]{{9,}}\\.txz$', f)`
for a username without regex metacharacters (the source interpolates the raw
username into the pattern; all usernames passing the POSIX-safe firewall that
appear below are alphanumeric, where both readings agree). -/
def matchesSubmitRe (fname u : String) (n : Int) : Bool :=
  let pre := "submit." ++ u ++ "-" ++ toString n ++ "."
  let suf := ".txz"
  let mid := fname.data.drop pre.data.length
  strStartsWith fname pre && strEndsWith fname suf &&
  decide (pre.data.length + suf.data.length ≤ fname.data.length) &&
  validEpochPart (mid.take (mid.length - suf.data.length))

/-- `validate_slot_dict_nolock(slot_dict, username, slot_num)`: `none` means
the slot passed, otherwise the source's error string. -/
def validateSlotDictNolock (d : Dict) (u : String) (n : Int) : Option String :=
  if !checkUsernameArg u then some "invalid username arg"
  else if !checkSlotNumArg n then some "invalid slot_num arg"
  else match returnUserDirPath u with
  | none => some "invalid username arg"
  | some _ =>
  match returnSlotDirPath u n with
  | none => some "invalid slot_num arg"
  | some _ =>
  -- firewall check slot no_comment
  match getKey? d "no_comment" with
  | none => some "missing slot no_comment string"
  | some ncv =>
  match ncv with
  | .str nc =>
    if !(nc == NO_COMMENT_VALUE) then some "invalid slot no_comment"
    else
    -- firewall check slot_JSON_format_version
    match getKey? d "slot_JSON_format_version" with
    | none => some "missing slot_JSON_format_version string"
    | some verv =>
    match verv with
    | .str ver =>
      if !(ver == SLOT_VERSION_VALUE) then some "invalid slot_JSON_format_version"
      else
      -- slot must have the correct slot number
      match getKey? d "slot" with
      | none => some "missing slot number"
      | some slotv =>
      match slotv with
      | .int sn =>
        if !(sn == n) then some "wrong slot number"
        else
        -- filename pattern checks (only when the filename is a truthy string)
        let submitFile := returnSubmitFilename d u n
        let filenameIsString := submitFile.isSome
        let fnameChecks : Option String :=
          match submitFile with
          | none => none
          | some f =>
            if !(strStartsWith f "submit.") then
              some "slot filename does not begin with submit."
            else if !(strStartsWith f ("submit." ++ u ++ "-" ++ toString n ++ ".")) then
              some ("slot filename does not begin with submit." ++ u ++ "-" ++
                    toString n ++ ".")
            else if !(strEndsWith f ".txz") then
              some "slot filename does not end with .txz"
            else if !(matchesSubmitRe f u n) then
              some "invalid slot filename timestamp"
            else none
        match fnameChecks with
        | some e => some e
        | none =>
        -- length: int >= 0 with a filename, otherwise must be falsy
        match getKey? d "length" with
        | none => some "missing slot length int"
        | some lenv =>
        let lenCheck : Option String :=
          if filenameIsString then
            match lenv with
            | .int len => if len < 0 then some "slot length not >= 0" else none
            | _ => some "slot length is not an int"
          else if !lenv.falsy then some "have length w/o filename"
          else none
        match lenCheck with
        | some e => some e
        | none =>
        -- date: parseable string with a filename, otherwise must be falsy
        match getKey? d "date" with
        | none => some "missing slot date string"
        | some datev =>
        let dateCheck : Option String :=
          if filenameIsString then
            match datev with
            | .str ds =>
              if !(parsesDatetimeUsec ds) then some "slot date format is invalid"
              else none
            | _ => some "slot date is not a string"
          else if !datev.falsy then some "have date w/o filename"
          else none
        match dateCheck with
        | some e => some e
        | none =>
        -- SHA256: 64-char string with a filename, otherwise must be falsy
        match getKey? d "SHA256" with
        | none => some "missing slot SHA256 string"
        | some shav =>
        let shaCheck : Option String :=
          if filenameIsString then
            match shav with
            | .str sh =>
              if !(sh.length == SHA256_HEXLEN) then some "slot SHA256 length is wrong"
              else none
            | _ => some "slot SHA256 is not a string"
          else if !shav.falsy then some "have SHA256 w/o filename"
          else none
        match shaCheck with
        | some e => some e
        | none =>
        -- collected boolean
        match getKey? d "collected" with
        | none => some "missing slot collected boolean"
        | some collv =>
        match collv with
        | .bool coll =>
          -- status string
          match getKey? d "status" with
          | none => some "missing slot status string"
          | some statusv =>
          match statusv with
          | .str _ =>
            -- collected requires a filename string
            if !filenameIsString && coll then
              some "submit file was collected w/o filename"
            else none
          | _ => some "slot status is not a string"
        | _ => some "slot collected is not a boolean"
      | _ => some "slot number is not an int"
    | _ => some "slot_JSON_format_version is not a string"
  | _ => some "slot no_comment is not a string"

/-! ### User record validation and the contest window -/

/-- `validate_user_dict_nolock(user_dict)`: the source is a chain of early
`return False` checks; conjunction of the same checks in the same order. -/
def validateUserDictNolock (d : Dict) : Bool :=
  (match getKey? d "username" with
   | some (.str uname) => checkUsernameArg uname
   | _ => false) &&
  (match getKey? d "no_comment" with
   | some (.str s) => s == NO_COMMENT_VALUE
   | _ => false) &&
  (match getKey? d "iocccpasswd_format_version" with
   | some (.str s) => s == PASSWORD_VERSION_VALUE
   | _ => false) &&
  (match getKey? d "pwhash" with
   | some (.str _) => true
   | _ => false) &&
  (match getKey? d "ignore_date" with
   | some (.bool _) => true
   | _ => false) &&
  (match getKey? d "force_pw_change" with
   | some (.bool _) => true
   | _ => false) &&
  -- pw_change_by: present, and falsy values or strings are accepted
  (match getKey? d "pw_change_by" with
   | some v => v.falsy || (match v with | .str _ => true | _ => false)
   | none => false) &&
  (match getKey? d "email" with
   | some v => v.falsy || (match v with | .str _ => true | _ => false)
   | none => false) &&
  (match getKey? d "disable_login" with
   | some (.bool _) => true
   | _ => false)

/-- `contest_open_close(user_dict, open_datetime, close_datetime)`.  Datetimes
are modelled by their UTC timestamps (`Int`); `none` is Python `None` (the
`isinstance` firewall arm is carried by typing, and `replace(tzinfo=utc)`
never fails).  `now`, read inside the source from the wall clock, is passed
explicitly. -/
def contestOpenClose (u : Dict) (openDt closeDt : Option Int) (now : Int) :
    Bool × Bool × Bool :=
  match openDt with
  | none => (false, false, false)
  | some o =>
  match closeDt with
  | none => (false, false, false)
  | some c =>
  if !validateUserDictNolock u then (false, false, false)
  else match getKey? u "ignore_date" with
  | none => (false, false, false)   -- paranoia: ignore_date missing
  | some v =>
    if !v.falsy then (false, true, false)
    else if now < o then (true, false, false)
    else if c ≤ now then (false, false, true)
    else (false, true, false)

/-! ### Password store: upsert and delete -/

/-- The typed argument tuple of `update_username` after its firewall:
`pwhash` a string, `ignore_date`/`force_pw_change`/`disable_login` booleans,
`pw_change_by`/`email` strings or `None`. -/
structure UserFields where
  pwhash : String
  ignoreDate : Bool
  forcePwChange : Bool
  pwChangeBy : Option String
  email : Option String
  disableLogin : Bool
  deriving DecidableEq, Repr

/-- A Python `str`-or-`None` value as stored into JSON. -/
def optStr : Option String → JVal
  | none => .null
  | some s => .str s

/-- The scan guard `'username' in i and i['username'] == username` (Python
`==` between a dict value and a `str`). -/
def recordMatches (u : String) (d : Dict) : Bool :=
  match getKey? d "username" with
  | some (.str s) => s == u
  | _ => false

/-- Field assignments done on a matching record by `update_username`. -/
def applyUserFields (f : UserFields) (d : Dict) : Dict :=
  setKey (setKey (setKey (setKey (setKey (setKey d
    "pwhash" (.str f.pwhash))
    "ignore_date" (.bool f.ignoreDate))
    "force_pw_change" (.bool f.forcePwChange))
    "pw_change_by" (optStr f.pwChangeBy))
    "email" (optStr f.email))
    "disable_login" (.bool f.disableLogin)

/-- The record appended by `update_username` when the username is new. -/
def newUserRecord (u : String) (f : UserFields) : Dict :=
  [("no_comment", .str NO_COMMENT_VALUE),
   ("iocccpasswd_format_version", .str PASSWORD_VERSION_VALUE),
   ("username", .str u),
   ("pwhash", .str f.pwhash),
   ("ignore_date", .bool f.ignoreDate),
   ("force_pw_change", .bool f.forcePwChange),
   ("pw_change_by", optStr f.pwChangeBy),
   ("email", optStr f.email),
   ("disable_login", .bool f.disableLogin)]

/-- The scan-and-update loop of `update_username`: update the first matching
record in place (the loop breaks on the first match), else append the new
record at the end. -/
def upsertUser (u : String) (f : UserFields) : List Dict → List Dict
  | [] => [newUserRecord u f]
  | d :: t =>
    if recordMatches u d then applyUserFields f d :: t
    else d :: upsertUser u f t

/-- External-call outcomes of one `update_username` invocation. -/
structure PwWriteEnv where
  lockOk : Bool     -- ioccc_file_lock(PW_LOCK) succeeded
  seedOk : Bool     -- shutil.copy2 seeding (when needed) succeeded
  openOk : Bool     -- open/json.load of PW_FILE succeeded
  writeOk : Bool    -- rewrite of PW_FILE succeeded
  deriving Repr

def PwWriteEnv.allOk (e : PwWriteEnv) : Bool :=
  e.lockOk && e.seedOk && e.openOk && e.writeOk

/-- `update_username(username, ...)` over the parsed password array `pw`
(the contents of `PW_FILE` at read time, post-seeding): `none` models a
`False` return (firewall failure, an external failure, or the falsy-array
guard `if not pw_dict`), `some pw2` a `True` return with `pw2` written. -/
def updateUsername (e : PwWriteEnv) (u : String) (f : UserFields)
    (pw : List Dict) : Option (List Dict) :=
  if !checkUsernameArg u then none
  else if !e.allOk then none
  else if pw.isEmpty then none
  else some (upsertUser u f pw)

/-- Result of `delete_username`: a normal return, or an uncaught exception
(the `if not pw_dict:` arm references `errcode`, which is unbound there, so a
falsy parsed array raises `NameError`). -/
inductive DelOutcome where
  | ret (r : Option Dict) : DelOutcome
  | raises : DelOutcome
  deriving DecidableEq, Repr

/-- `delete_username(username)` over the parsed password array; the returned
`Bool` tells whether the process still holds the password-file lock when the
call returns.  Translated arm by arm:  every failure arm calls
`ioccc_file_unlock()` before returning, except the `no such user to delete`
arm, which returns with the lock still held. -/
def deleteUsername (e : PwWriteEnv) (u : String) (pw : List Dict) :
    DelOutcome × Bool :=
  if !checkUsernameArg u then (.ret none, false)
  else if !e.lockOk then (.ret none, false)
  else if !e.seedOk then (.ret none, false)       -- unlocks before returning
  else if !e.openOk then (.ret none, false)       -- unlocks before returning
  else if pw.isEmpty then (.raises, true)         -- NameError, lock leaks
  else
    -- the loop keeps overwriting deleted_user, so the last match wins
    let deletedUser := pw.foldl
      (fun acc d => if recordMatches u d then some d else acc) none
    match deletedUser with
    | none => (.ret none, true)                   -- BUG: no unlock on this arm
    | some drec =>
      if !e.writeOk then (.ret none, false)       -- unlocks before returning
      else (.ret (some drec), false)              -- unlocks before returning

/-! ### Slot status patches -/

/-- External-call outcomes shared by `update_slot_status` and
`update_slot_status_if_submit`. -/
structure SlotPatchEnv where
  lookupOk : Bool           -- lookup_username(username) returned a record
  lockOk : Bool             -- lock_slot succeeded
  readDict : Option Dict    -- read_json_file_nolock result (none = falsy)
  writeOk : Bool            -- write_slot_json_nolock succeeded
  deriving Repr

/-- `update_slot_status(username, slot_num, status, set_collected_to_true)`.
Returns the source's boolean result and the slot dict written back (`none`
when no write happened). -/
def updateSlotStatus (e : SlotPatchEnv) (u : String) (n : Int)
    (status : String) (setCollectedToTrue : Bool) : Bool × Option Dict :=
  if !checkUsernameArg u then (false, none)
  else if !checkSlotNumArg n then (false, none)
  else if !e.lookupOk then (false, none)
  else match returnSlotDirPath u n with
  | none => (false, none)          -- return_slot_json_filename failed
  | some _ =>
    if !e.lockOk then (false, none)
    else match e.readDict with
    | none => (false, none)
    | some d =>
      let d1 := setKey d "status" (.str status)
      let d2 :=
        if setCollectedToTrue || !hasKey d1 "collected" then
          setKey d1 "collected" (.bool true)
        else d1
      if !e.writeOk then (false, none)
      else (true, some d2)

/-- `update_slot_status_if_submit(username, slot_num, status, submit_file)`:
when the slot's current `filename` differs from `submit_file` the patch is
silently dropped and `True` is returned with no write. -/
def updateSlotStatusIfSubmit (e : SlotPatchEnv) (u : String) (n : Int)
    (status : String) (submitFile : String) : Bool × Option Dict :=
  if !checkUsernameArg u then (false, none)
  else if !checkSlotNumArg n then (false, none)
  else if !e.lookupOk then (false, none)
  else match returnSlotDirPath u n with
  | none => (false, none)
  | some _ =>
    if !e.lockOk then (false, none)
    else match e.readDict with
    | none => (false, none)
    | some d =>
      match getKey? d "filename" with
      | none => (false, none)      -- missing filename: error, no write
      | some v =>
        if !(v == JVal.str submitFile) then (true, none)  -- silently dropped
        else
          let d1 := setKey d "status" (.str status)
          if !e.writeOk then (false, none)
          else (true, some d1)

/-! ### Record codec reads -/

/-- On-disk condition of a JSON file whose well-formed content is `α`
(`List Dict` for the password array, `Dict` for the state file). -/
inductive FileContent (α : Type) where
  | missing : FileContent α
  | empty : FileContent α            -- present with size 0
  | invalid : FileContent α          -- present, nonempty, fails json.load
  | wellFormed (v : α) : FileContent α
  deriving Repr

/-- Oracle for one password-file read. -/
structure PwReadEnv where
  content : FileContent (List Dict)   -- PW_FILE before the call
  template : FileContent (List Dict)  -- INIT_PW_FILE
  copyOk : Bool                       -- shutil.copy2 seeding succeeded
  lockOk : Bool                       -- FileLock(PW_LOCK).acquire succeeded
  openOk : Bool                       -- open(PW_FILE) raised no OSError
  deriving Repr

/-- Outcome of `read_pwfile()`. -/
inductive PwReadResult where
  | ok (l : List Dict) : PwReadResult
  | retNone : PwReadResult
  | raises : PwReadResult
  deriving DecidableEq, Repr

/-- `read_pwfile()`: returns the outcome and whether the template reseed was
performed.  The `try` around `json.load` catches only `OSError`, so a present
but syntactically invalid password file raises `json.JSONDecodeError` out of
the function; the empty-array arm references the unbound `errcode` and raises
`NameError`.  Reseeding happens only when the file is missing or empty. -/
def readPwfile (e : PwReadEnv) : PwReadResult × Bool :=
  let needSeed :=
    match e.content with
    | .missing => true
    | .empty => true
    | _ => false
  if needSeed && !e.copyOk then (.retNone, false)
  else
    let c := if needSeed then e.template else e.content
    if !e.lockOk then (.retNone, needSeed)
    else if !e.openOk then (.retNone, needSeed)
    else
      match c with
      | .missing => (.retNone, needSeed)   -- FileNotFoundError is an OSError
      | .empty => (.raises, needSeed)      -- json.load raises JSONDecodeError
      | .invalid => (.raises, needSeed)    -- json.load raises JSONDecodeError
      | .wellFormed l =>
        if l.isEmpty then (.raises, needSeed)  -- unbound errcode: NameError
        else (.ok l, needSeed)

/-- `read_json_file_nolock(json_file)` for a dict-valued JSON file: every
parse or I/O failure is caught and the falsy sentinel `[]` is returned,
modelled as `none`. -/
def readJsonFileNolock (c : FileContent Dict) : Option Dict :=
  match c with
  | .missing => none        -- OSError caught, returns []
  | .empty => none          -- JSONDecodeError caught, returns []
  | .invalid => none        -- JSONDecodeError caught, returns []
  | .wellFormed d => if d.isEmpty then some [] else some d

/-- Oracle for one `read_state()` call. -/
structure StateReadEnv where
  content : FileContent Dict     -- STATE_FILE before the call
  template : FileContent Dict    -- INIT_STATE_FILE
  copyOk : Bool
  lockOk : Bool
  deriving Repr

/-- `read_state()`: returns the `(open_date, close_date)` strings when every
firewall passes, `none` for the `(None, None)` sentinel, plus whether the
template reseed was performed.  Invalid-but-present content flows through
`read_json_file_nolock`, whose falsy sentinel yields `(None, None)` with no
reseed. -/
def readState (e : StateReadEnv) : Option (String × String) × Bool :=
  if !e.lockOk then (none, false)
  else
    let needSeed :=
      match e.content with
      | .missing => true
      | .empty => true
      | _ => false
    if needSeed && !e.copyOk then (none, false)
    else
      let c := if needSeed then e.template else e.content
      match readJsonFileNolock c with
      | none => (none, needSeed)
      | some st =>
        if st.isEmpty then (none, needSeed)   -- falsy dict
        else
          match getKey? st "no_comment" with
          | some (.str nc) =>
            if !(nc == NO_COMMENT_VALUE) then (none, needSeed)
            else match getKey? st "state_JSON_format_version" with
            | some (.str ver) =>
              if !(ver == STATE_VERSION_VALUE) then (none, needSeed)
              else match getKey? st "open_date" with
              | some (.str od) =>
                if !parsesDatetimeUsec od then (none, needSeed)
                else match getKey? st "close_date" with
                | some (.str cd) =>
                  if !parsesDatetimeUsec cd then (none, needSeed)
                  else (some (od, cd), needSeed)
                | _ => (none, needSeed)
              | _ => (none, needSeed)
            | _ => (none, needSeed)
          | _ => (none, needSeed)

/-! ### Lock primitive as an event machine -/

/-- Process-visible lock events.  `registerAcquire`/`registerRelease` are
`ioccc_file_lock`/`ioccc_file_unlock`, which manage the process-wide
registered lock (`ioccc_last_lock_fd`/`ioccc_last_lock_path`).
`directAcquire`/`directRelease` are the plain `FileLock` acquire/release
pair that `read_pwfile` performs without touching the registry. -/
inductive LockEvent where
  | registerAcquire (p : String) : LockEvent
  | registerRelease : LockEvent
  | directAcquire (p : String) : LockEvent
  | directRelease (p : String) : LockEvent
  deriving DecidableEq, Repr

/-- Lock state of the process: the registered lock path, and every path on
which the process currently holds an OS-level advisory lock. -/
structure LockState where
  registered : Option String
  held : List String
  deriving DecidableEq, Repr

def initLockState : LockState := ⟨none, []⟩

/-- One lock event, acquisition success assumed (timeout and `OSError` arms
return early without changing what is held). `registerAcquire` first
force-releases any still-registered lock, as `ioccc_file_lock` does. -/
def stepLock (s : LockState) : LockEvent → LockState
  | .registerAcquire p =>
    let s1 : LockState :=
      match s.registered with
      | some q => ⟨none, s.held.erase q⟩
      | none => s
    ⟨some p, p :: s1.held⟩
  | .registerRelease =>
    match s.registered with
    | some q => ⟨none, s.held.erase q⟩
    | none => ⟨none, s.held⟩
  | .directAcquire p => ⟨s.registered, p :: s.held⟩
  | .directRelease p => ⟨s.registered, s.held.erase p⟩

def runLockEvents (s : LockState) : List LockEvent → LockState
  | [] => s
  | e :: t => runLockEvents (stepLock s e) t

/-- Lock events of `read_pwfile()`: a direct, unregistered acquire/release
pair on `PW_LOCK`. -/
def readPwfileLockTrace : List LockEvent :=
  [.directAcquire PW_LOCK, .directRelease PW_LOCK]

/-- `lookup_username` reads the password file. -/
def lookupUsernameLockTrace : List LockEvent := readPwfileLockTrace

/-- `lock_slot(username, slot_num)` locks `<slot_dir>/lock` through
`ioccc_file_lock`. -/
def lockSlotLockTrace (u : String) (n : Int) : List LockEvent :=
  [.registerAcquire ((returnSlotLockfile u n).getD "")]

/-- `unlock_slot()` calls `ioccc_file_unlock()`. -/
def unlockSlotLockTrace : List LockEvent := [.registerRelease]

/-- `validate_slot_nolock` calls `lookup_username(username)` (it takes no
lock of its own). -/
def validateSlotNolockLockTrace : List LockEvent := lookupUsernameLockTrace

/-- Lock events of a successful `stage_submit(username, slot_num)` run:
`lookup_username` before locking, `lock_slot`, the validation's
`lookup_username` performed while the slot lock is held, then
`unlock_slot`. -/
def stageSubmitLockTrace (u : String) (n : Int) : List LockEvent :=
  lookupUsernameLockTrace ++ lockSlotLockTrace u n ++
  validateSlotNolockLockTrace ++ unlockSlotLockTrace

/-- The events generated by `ioccc_file_lock`/`ioccc_file_unlock` alone. -/
def LockEvent.isRegister : LockEvent → Bool
  | .registerAcquire _ => true
  | .registerRelease => true
  | _ => false

/-! ### Staging pipeline -/

/-- The glob `submit.*.txz` over names in the slot directory. -/
def matchesSubmitGlob (f : String) : Bool :=
  strStartsWith f "submit." && strEndsWith f ".txz" && decide (11 ≤ f.length)

/-- Number of `submit.*.txz` names in a slot directory listing. -/
def countSubmit (files : List String) : Nat :=
  (files.filter matchesSubmitGlob).length

/-- `move_unexpected_nolock(slot_dir)` over the slot directory listing:
every `submit.*.txz` name is moved to `UNEXPECTED_DIR` and counted.  The
`shutil.move` `OSError` arm (which would stop early and report 0) is outside
the model: moves succeed. -/
def moveUnexpectedNolock (files : List String) :
    Nat × List String :=
  (countSubmit files, files.filter (fun f => !matchesSubmitGlob f))

/-- Oracle for the external calls of `validate_slot_nolock` (with
`submit_required = True`, `check_hash = True`, as `stage_submit` passes) and
`stage_submit` itself.  File existence is the slot-directory listing; the
hash and length comparisons against the on-disk bytes are oracle bits. -/
structure StageOracle where
  lookupOk : Bool      -- lookup_username(username) returned a record
  lockOk : Bool        -- lock_slot succeeded
  sha256Ok : Bool      -- sha256_file(submit_path) returned a digest
  hashMatches : Bool   -- that digest equals slot_dict['SHA256']
  sizeMatches : Bool   -- os.path.getsize(submit_path) == slot_dict['length']
  replaceOk : Bool     -- os.replace into STAGED_DIR succeeded
  deriving Repr

/-- `validate_slot_nolock(slot_dict, username, slot_num, True, True)`:
`none` means no slot error.  The boolean-argument `isinstance` firewalls are
carried by typing. -/
def validateSlotNolock (o : StageOracle) (d : Dict) (u : String) (n : Int)
    (files : List String) : Option String :=
  if !checkUsernameArg u then some "invalid username arg"
  else if !checkSlotNumArg n then some "invalid slot_num arg"
  else if !o.lookupOk then some "no such username"
  else match returnSlotDirPath u n with
  | none => some "return_slot_dir_path failed"
  | some _ =>
    match validateSlotDictNolock d u n with
    | some e => some e
    | none =>
      match returnSubmitFilename d u n with
      | some fname =>
        if fname ∈ files then
          -- check_hash is True in this call
          if !o.sha256Ok then some "submit file SHA256 hash failed"
          else if !o.hashMatches then some "submit file corrupted contents"
          else if truthyAt d "collected" then
            some "submit file collected but still exists"
          else if !o.sizeMatches then some "submit file length is wrong"
          else none
        else  -- submit_required is True in this call
          some "submit file is missing"
      | none =>
        -- filename is not a string; submit_required is True in this call
        some "submit file is expected to exist but does not"

/-- `stage_submit(username, slot_num)`.  `d?` is the
`get_slot_dict_nolock` result (`none` for its falsy failure sentinel);
`files` is the slot directory listing.  Returns the source's triple
(hexdigest `slot_dict['SHA256']`, staged path or `'.'`, unexpected count)
and the slot directory listing after the call. -/
def stageSubmit (o : StageOracle) (u : String) (n : Int) (d? : Option Dict)
    (files : List String) : (Option JVal × String × Nat) × List String :=
  if !checkUsernameArg u then ((none, ".", 0), files)
  else if !checkSlotNumArg n then ((none, ".", 0), files)
  else if !o.lookupOk then ((none, ".", 0), files)
  else match returnSlotDirPath u n with
  | none => ((none, ".", 0), files)
  | some _ =>
    if !o.lockOk then ((none, ".", 0), files)
    else match d? with
    | none =>
      let (cnt, rem) := moveUnexpectedNolock files
      ((none, ".", cnt), rem)
    | some d =>
      match validateSlotNolock o d u n files with
      | some _ =>
        let (cnt, rem) := moveUnexpectedNolock files
        ((none, ".", cnt), rem)
      | none =>
        match returnSubmitPath d u n with
        | none =>
          let (cnt, rem) := moveUnexpectedNolock files
          ((none, ".", cnt), rem)
        | some _ =>
          -- submit_file = os.path.basename(submit_path), i.e. the filename
          let fname := (returnSubmitFilename d u n).getD ""
          if !o.replaceOk then
            let (cnt, rem) := moveUnexpectedNolock files
            ((none, ".", cnt), rem)
          else
            let files1 := files.erase fname   -- os.replace moved it out
            -- slot_dict gains collected=True and the new status, and is
            -- written back (a write failure is only logged)
            let (cnt, rem) := moveUnexpectedNolock files1
            ((getKey? d "SHA256", STAGED_DIR ++ "/" ++ fname, cnt), rem)

/-! ### The stage.py command-line tool -/

/-- Oracle for one `bin/stage.py` run. -/
structure StageCliEnv where
  topdirGiven : Bool        -- -t topdir was passed
  changeAppdirOk : Bool     -- change_startup_appdir(topdir) succeeded
  slotPathIsDir : Bool      -- Path(slot_path).is_dir()
  slotBasename : String     -- os.path.basename(slot_path)
  username : String         -- basename of the parent of slot_path
  deriving Repr

/-- Python `str.isdecimal` restricted to ASCII digits. -/
def isDecimalStr (s : String) : Bool :=
  !s.isEmpty && s.data.all Char.isDigit

/-- Digits to the slot number `int(slot_num_str)`. -/
def decStrToInt (s : String) : Int :=
  Int.ofNat (s.data.foldl (fun a c => a * 10 + (c.toNat - 48)) 0)

/-- What `main()` of `bin/stage.py` writes to stdout, control flow from the
source: `none` means the run aborts with an uncaught exception before any
contract line is printed.  The arm that would call `stage_submit` first runs
`check_username_arg(username)` — one argument, though the function requires
two (`username, parent`) — which raises `TypeError`, so every run that gets
past the slot-number firewall crashes without printing. -/
def stageMainStdout (e : StageCliEnv) : Option String :=
  if e.topdirGiven && !e.changeAppdirOk then some "exit.3 . 0"
  else if !e.slotPathIsDir then some "exit.4 . 0"
  else if !isDecimalStr e.slotBasename then some "exit.5 . 0"
  else if !checkSlotNumArg (decStrToInt e.slotBasename) then some "exit.6 . 0"
  else none

/-- The result-printing logic of `main()` (source lines 165-196), reached
with the `stage_submit` triple: on the failure sentinel, `hexdigest` is
`None` and the `exit.8` substitution fires only for non-`None` non-string
values, so the f-string renders the literal `None` as the first field. -/
def stagePrintLine (h : Option String) (p : String) (c : Int) : String :=
  match h with
  | some hx => hx ++ " " ++ p ++ " " ++ toString c
  | none => "None" ++ " " ++ p ++ " " ++ toString c

/-! ### Helper lemmas on dict updates -/

theorem getKey_setKey_self (d : Dict) (k : String) (v : JVal) :
    getKey? (setKey d k v) k = some v := by
  induction d with
  | nil => simp [setKey, getKey?]
  | cons hd t ih =>
    obtain ⟨k0, v0⟩ := hd
    by_cases h : k0 = k
    · simp [setKey, getKey?, h]
    · simp [setKey, getKey?, h, ih]

theorem getKey_setKey_ne (d : Dict) {k j : String} (h : j ≠ k) (v : JVal) :
    getKey? (setKey d k v) j = getKey? d j := by
  induction d with
  | nil => simp [setKey, getKey?, Ne.symm h]
  | cons hd t ih =>
    obtain ⟨k0, v0⟩ := hd
    by_cases h0 : k0 = k
    · subst h0
      simp [setKey, getKey?, Ne.symm h]
    · by_cases h1 : k0 = j
      · simp [setKey, getKey?, h0, h1, h]
      · simp [setKey, getKey?, h0, h1, ih]

theorem setKey_self_eq {d : Dict} {k : String} {v : JVal}
    (h : getKey? d k = some v) : setKey d k v = d := by
  induction d with
  | nil => simp [getKey?] at h
  | cons hd t ih =>
    obtain ⟨k0, v0⟩ := hd
    by_cases h0 : k0 = k
    · subst h0
      simp [getKey?] at h
      simp [setKey, h]
    · simp [getKey?, h0] at h
      simp [setKey, h0, ih h]

theorem hasKey_setKey_ne (d : Dict) {k j : String} (h : j ≠ k) (v : JVal) :
    hasKey (setKey d k v) j = hasKey d j := by
  simp [hasKey, getKey_setKey_ne d h v]

/-- `applyUserFields` never touches the `"username"` key. -/
theorem getKey_applyUserFields_username (f : UserFields) (d : Dict) :
    getKey? (applyUserFields f d) "username" = getKey? d "username" := by
  unfold applyUserFields
  rw [getKey_setKey_ne _ (by decide), getKey_setKey_ne _ (by decide),
      getKey_setKey_ne _ (by decide), getKey_setKey_ne _ (by decide),
      getKey_setKey_ne _ (by decide), getKey_setKey_ne _ (by decide)]

theorem recordMatches_applyUserFields (u : String) (f : UserFields) (d : Dict) :
    recordMatches u (applyUserFields f d) = recordMatches u d := by
  simp [recordMatches, getKey_applyUserFields_username]

theorem getKey_auf_pwhash (f : UserFields) (d : Dict) :
    getKey? (applyUserFields f d) "pwhash" = some (.str f.pwhash) := by
  unfold applyUserFields
  rw [getKey_setKey_ne _ (by decide), getKey_setKey_ne _ (by decide),
      getKey_setKey_ne _ (by decide), getKey_setKey_ne _ (by decide),
      getKey_setKey_ne _ (by decide)]
  exact getKey_setKey_self ..

theorem getKey_auf_ignoreDate (f : UserFields) (d : Dict) :
    getKey? (applyUserFields f d) "ignore_date" = some (.bool f.ignoreDate) := by
  unfold applyUserFields
  rw [getKey_setKey_ne _ (by decide), getKey_setKey_ne _ (by decide),
      getKey_setKey_ne _ (by decide), getKey_setKey_ne _ (by decide)]
  exact getKey_setKey_self ..

theorem getKey_auf_forcePwChange (f : UserFields) (d : Dict) :
    getKey? (applyUserFields f d) "force_pw_change" =
      some (.bool f.forcePwChange) := by
  unfold applyUserFields
  rw [getKey_setKey_ne _ (by decide), getKey_setKey_ne _ (by decide),
      getKey_setKey_ne _ (by decide)]
  exact getKey_setKey_self ..

theorem getKey_auf_pwChangeBy (f : UserFields) (d : Dict) :
    getKey? (applyUserFields f d) "pw_change_by" = some (optStr f.pwChangeBy) := by
  unfold applyUserFields
  rw [getKey_setKey_ne _ (by decide), getKey_setKey_ne _ (by decide)]
  exact getKey_setKey_self ..

theorem getKey_auf_email (f : UserFields) (d : Dict) :
    getKey? (applyUserFields f d) "email" = some (optStr f.email) := by
  unfold applyUserFields
  rw [getKey_setKey_ne _ (by decide)]
  exact getKey_setKey_self ..

theorem getKey_auf_disableLogin (f : UserFields) (d : Dict) :
    getKey? (applyUserFields f d) "disable_login" =
      some (.bool f.disableLogin) := by
  unfold applyUserFields
  exact getKey_setKey_self ..

theorem applyUserFields_idem (f : UserFields) (d : Dict) :
    applyUserFields f (applyUserFields f d) = applyUserFields f d := by
  show setKey (setKey (setKey (setKey (setKey (setKey (applyUserFields f d)
    "pwhash" (.str f.pwhash)) "ignore_date" (.bool f.ignoreDate))
    "force_pw_change" (.bool f.forcePwChange))
    "pw_change_by" (optStr f.pwChangeBy)) "email" (optStr f.email))
    "disable_login" (.bool f.disableLogin) = applyUserFields f d
  rw [setKey_self_eq (getKey_auf_pwhash f d),
      setKey_self_eq (getKey_auf_ignoreDate f d),
      setKey_self_eq (getKey_auf_forcePwChange f d),
      setKey_self_eq (getKey_auf_pwChangeBy f d),
      setKey_self_eq (getKey_auf_email f d),
      setKey_self_eq (getKey_auf_disableLogin f d)]

theorem recordMatches_newUserRecord (u : String) (f : UserFields) :
    recordMatches u (newUserRecord u f) = true := by
  simp [recordMatches, newUserRecord, getKey?]

theorem applyUserFields_newUserRecord (u : String) (f : UserFields) :
    applyUserFields f (newUserRecord u f) = newUserRecord u f := rfl

theorem upsertUser_idem (u : String) (f : UserFields) (l : List Dict) :
    upsertUser u f (upsertUser u f l) = upsertUser u f l := by
  induction l with
  | nil =>
    simp [upsertUser, recordMatches_newUserRecord, applyUserFields_newUserRecord]
  | cons d t ih =>
    by_cases h : recordMatches u d
    · simp [upsertUser, h, recordMatches_applyUserFields, applyUserFields_idem]
    · simp [upsertUser, h, ih]

theorem upsertUser_ne_nil (u : String) (f : UserFields) (l : List Dict) :
    upsertUser u f l ≠ [] := by
  cases l with
  | nil => simp [upsertUser]
  | cons d t =>
    by_cases h : recordMatches u d <;> simp [upsertUser, h]

/-! ### Helper lemmas on the staging sweep -/

theorem countSubmit_moveUnexpected (files : List String) :
    countSubmit (moveUnexpectedNolock files).2 = 0 := by
  simp only [moveUnexpectedNolock, countSubmit, List.filter_filter]
  have hfalse : ∀ a : String,
      (matchesSubmitGlob a && !matchesSubmitGlob a) = false := by
    intro a
    cases matchesSubmitGlob a <;> simp
  simp [hfalse]

/-! ### Helper lemmas on the lock machine -/

/-- The registry invariant maintained by `ioccc_file_lock` and
`ioccc_file_unlock`: the held OS locks are exactly the registered one. -/
def LockInv (s : LockState) : Prop :=
  match s.registered with
  | some p => s.held = [p]
  | none => s.held = []

theorem lockInv_step {s : LockState} (hs : LockInv s) {e : LockEvent}
    (he : e.isRegister = true) : LockInv (stepLock s e) := by
  cases e with
  | registerAcquire p =>
    cases hreg : s.registered with
    | none =>
      unfold LockInv at hs
      rw [hreg] at hs
      simp [stepLock, hreg, LockInv, hs]
    | some q =>
      unfold LockInv at hs
      rw [hreg] at hs
      simp [stepLock, hreg, LockInv, hs]
  | registerRelease =>
    cases hreg : s.registered with
    | none =>
      unfold LockInv at hs
      rw [hreg] at hs
      simp [stepLock, hreg, LockInv, hs]
    | some q =>
      unfold LockInv at hs
      rw [hreg] at hs
      simp [stepLock, hreg, LockInv, hs]
  | directAcquire p => simp [LockEvent.isRegister] at he
  | directRelease p => simp [LockEvent.isRegister] at he

theorem lockInv_run {s : LockState} (hs : LockInv s) {evs : List LockEvent}
    (he : ∀ e ∈ evs, e.isRegister = true) : LockInv (runLockEvents s evs) := by
  induction evs generalizing s with
  | nil => exact hs
  | cons e t ih =>
    exact ih (lockInv_step hs (he e (by simp))) fun x hx => he x (by simp [hx])

theorem lockInv_held_le_one {s : LockState} (hs : LockInv s) :
    s.held.length ≤ 1 := by
  unfold LockInv at hs
  cases hreg : s.registered with
  | none => rw [hreg] at hs; simp [hs]
  | some p => rw [hreg] at hs; simp [hs]

theorem returnSlotDirPath_eq_some {u : String} {n : Int}
    (hu : checkUsernameArg u = true) (hn : checkSlotNumArg n = true) :
    returnSlotDirPath u n = some (USERS_DIR ++ "/" ++ u ++ "/" ++ toString n) := by
  simp [returnSlotDirPath, returnUserDirPath, hu, hn]

/-! ## Claim theorems -/

/-- C1 counterexample: with a valid username and slot number whose username
is not in the password database (`lookup_username` fails), `stage_submit`
returns the failure sentinel `(None, '.', 0)` without performing the
quarantine sweep, and a `submit.*.txz` file placed in the slot directory
stays there — so it is not the case that after every return of
`stage_submit` the slot directory holds zero submission-pattern files. -/
theorem stage_submit_postcondition_cex :
    (stageSubmit ⟨false, true, true, true, true, true⟩ "a" 0 none
        ["submit.a-0.1234567890.txz"]).1 = (none, ".", 0) ∧
    countSubmit (stageSubmit ⟨false, true, true, true, true, true⟩ "a" 0 none
        ["submit.a-0.1234567890.txz"]).2 = 1 := by
  exact ⟨rfl, by decide⟩

/-- C1 (amended): for every oracle, slot dict and slot directory listing, if
the username and slot number pass the canonical firewalls, the username is in
the password database, and the slot lock is acquired, then after
`stage_submit` returns — success or failure — the slot directory holds zero
files matching `submit.*.txz`. -/
theorem stage_submit_postcondition (o : StageOracle) (u : String) (n : Int)
    (d? : Option Dict) (files : List String)
    (hu : checkUsernameArg u = true) (hn : checkSlotNumArg n = true)
    (hlook : o.lookupOk = true) (hlock : o.lockOk = true) :
    countSubmit (stageSubmit o u n d? files).2 = 0 := by
  have hdir := returnSlotDirPath_eq_some hu hn
  unfold stageSubmit
  rw [hu, hn, hlook, hlock, hdir]
  simp only [Bool.not_true, Bool.false_eq_true, if_false]
  cases d? with
  | none => exact countSubmit_moveUnexpected files
  | some d =>
    dsimp only
    cases hv : validateSlotNolock o d u n files with
    | some e => exact countSubmit_moveUnexpected files
    | none =>
      dsimp only
      cases hp : returnSubmitPath d u n with
      | none => exact countSubmit_moveUnexpected files
      | some p =>
        dsimp only
        cases hr : o.replaceOk with
        | false => exact countSubmit_moveUnexpected files
        | true => exact countSubmit_moveUnexpected _

/-- C1 witness: a concrete successful-lock run ends with a clean slot
directory. -/
theorem stage_submit_postcondition_witness :
    countSubmit (stageSubmit ⟨true, true, true, true, true, true⟩ "a" 0 none
        ["submit.a-0.1234567890.txz"]).2 = 0 :=
  stage_submit_postcondition ⟨true, true, true, true, true, true⟩ "a" 0 none
    ["submit.a-0.1234567890.txz"] (by decide) (by decide) rfl rfl

/-- C2 counterexample: four events into a `stage_submit("a", 0)` run — after
`lock_slot` registers the slot lock, `validate_slot_nolock` calls
`lookup_username`, whose `read_pwfile` acquires `PW_LOCK` through a plain
`FileLock` that bypasses the `ioccc_file_lock` registry — the process holds
two OS-level advisory locks at once, refuting the process-wide-singleton
claim exactly on the password-read-under-slot-lock sequence it quantifies
over. -/
theorem lock_singleton_cex :
    (runLockEvents initLockState ((stageSubmitLockTrace "a" 0).take 4)).held.length
      = 2 := by decide

/-- C2 (amended): restricted to the lock operations that go through the
registry (`ioccc_file_lock` / `ioccc_file_unlock`), the process holds at most
one OS-level advisory lock at every instant; `ioccc_file_lock` force-releases
a still-held previous registered lock before taking the new one.  The
password-file read in `read_pwfile` acquires `PW_LOCK` outside this registry,
so a password read under a held slot lock does hold two locks at once. -/
theorem lock_singleton_register_only (evs : List LockEvent)
    (h : ∀ e ∈ evs, e.isRegister = true) :
    (runLockEvents initLockState evs).held.length ≤ 1 :=
  lockInv_held_le_one (lockInv_run (show LockInv initLockState from rfl) h)

/-- C2 witness: a register-only event list keeps at most one lock held. -/
theorem lock_singleton_register_only_witness :
    (runLockEvents initLockState
      [.registerAcquire PW_LOCK, .registerRelease,
       .registerAcquire STATE_FILE_LOCK]).held.length ≤ 1 :=
  lock_singleton_register_only
    [.registerAcquire PW_LOCK, .registerRelease,
     .registerAcquire STATE_FILE_LOCK]
    (by intro e he; fin_cases he <;> rfl)

/-- C3: with every external call succeeding and the password array holding
only user `"a"`, `delete_username("b")` takes the `no such user to delete`
arm and returns `None` with the password-file lock still held — the one exit
arm of the function that omits `ioccc_file_unlock()`; the sibling arm that
does find the user releases the lock before returning. -/
theorem delete_username_lock_leak :
    deleteUsername ⟨true, true, true, true⟩ "b" [[("username", JVal.str "a")]]
      = (.ret none, true) ∧
    deleteUsername ⟨true, true, true, true⟩ "a" [[("username", JVal.str "a")]]
      = (.ret (some [("username", JVal.str "a")]), false) := by
  exact ⟨by decide, by decide⟩

/-- C4 helper: a user dict passing `validate_user_dict_nolock` has a boolean
`ignore_date` value. -/
theorem validate_user_ignore_date {u : Dict}
    (h : validateUserDictNolock u = true) :
    ∃ b, getKey? u "ignore_date" = some (.bool b) := by
  unfold validateUserDictNolock at h
  simp only [Bool.and_eq_true] at h
  obtain ⟨⟨⟨⟨⟨⟨⟨⟨-, -⟩, -⟩, -⟩, hig⟩, -⟩, -⟩, -⟩, -⟩ := h
  cases hv : getKey? u "ignore_date" with
  | none => rw [hv] at hig; simp at hig
  | some v =>
    cases v with
    | bool b => exact ⟨b, rfl⟩
    | null => rw [hv] at hig; simp at hig
    | int m => rw [hv] at hig; simp at hig
    | str s => rw [hv] at hig; simp at hig

/-- C4 counterexample: a user record whose ignore-contest-window flag is true
but which fails `validate_user_dict_nolock` (here: no `no_comment` field)
makes `contest_open_close` return `(false, false, false)`, not the
`(false, true, false)` the claim promises unconditionally for a
flag-true record. -/
theorem contest_open_close_cex :
    getKey? [("username", JVal.str "a"), ("ignore_date", JVal.bool true)]
        "ignore_date" = some (.bool true) ∧
    contestOpenClose [("username", JVal.str "a"), ("ignore_date", JVal.bool true)]
        (some 0) (some 10) 5 = (false, false, false) := by
  exact ⟨by decide, by decide⟩

/-- C4 (amended): when both datetimes are present and the user record passes
`validate_user_dict_nolock`, a true ignore-contest-window flag yields
`(false, true, false)`; with the flag false exactly one of the three booleans
is true — before-open iff now is before open, after-open iff now is at or
after close, open otherwise — and the all-false result never occurs; all
three are false only when a datetime is missing or validation failed. -/
theorem contest_open_close_window (u : Dict) (o c now : Int)
    (hv : validateUserDictNolock u = true) :
    (getKey? u "ignore_date" = some (.bool true) →
      contestOpenClose u (some o) (some c) now = (false, true, false)) ∧
    (getKey? u "ignore_date" = some (.bool false) →
      contestOpenClose u (some o) (some c) now =
        if now < o then (true, false, false)
        else if c ≤ now then (false, false, true)
        else (false, true, false)) ∧
    contestOpenClose u (some o) (some c) now ≠ (false, false, false) := by
  obtain ⟨b, hb⟩ := validate_user_ignore_date hv
  unfold contestOpenClose
  rw [hv, hb]
  simp only [Bool.not_true, Bool.false_eq_true, if_false]
  cases b with
  | true =>
    refine ⟨fun _ => ?_, fun hfalse => ?_, ?_⟩
    · simp [JVal.falsy]
    · simp at hfalse
    · simp [JVal.falsy]
  | false =>
    refine ⟨fun htrue => ?_, fun _ => ?_, ?_⟩
    · simp at htrue
    · simp [JVal.falsy]
    · simp only [JVal.falsy, Bool.not_false, Bool.not_true, Bool.false_eq_true,
        if_false]
      split_ifs <;> simp

/-- C4 witness: a fully valid user record with the flag set gets
`(false, true, false)` far outside the window. -/
theorem contest_open_close_window_witness :
    contestOpenClose
      [("no_comment", JVal.str NO_COMMENT_VALUE),
       ("iocccpasswd_format_version", JVal.str PASSWORD_VERSION_VALUE),
       ("username", JVal.str "a"),
       ("pwhash", JVal.str "h"),
       ("ignore_date", JVal.bool true),
       ("force_pw_change", JVal.bool false),
       ("pw_change_by", JVal.null),
       ("email", JVal.null),
       ("disable_login", JVal.bool false)]
      (some 0) (some 10) 99 = (false, true, false) :=
  (contest_open_close_window _ 0 10 99 (by decide)).1 (by decide)

/-- C5: the slot validator accepts (returns `None` for) a record whose
`filename` is null but whose `length` is the non-null integer 0 — the
null-consistency check `elif slot_dict['length']:` tests Python truthiness
and 0 is falsy — contradicting the function's own docstring (`length MUST be
None` when `filename` is null) and the claim. -/
theorem validate_slot_null_consistency_bug :
    validateSlotDictNolock
      [("no_comment", JVal.str NO_COMMENT_VALUE),
       ("slot_JSON_format_version", JVal.str SLOT_VERSION_VALUE),
       ("slot", JVal.int 0),
       ("filename", JVal.null),
       ("length", JVal.int 0),
       ("date", JVal.null),
       ("SHA256", JVal.null),
       ("collected", JVal.bool false),
       ("status", JVal.str "slot is empty")] "a" 0 = none ∧
    getKey? [("no_comment", JVal.str NO_COMMENT_VALUE),
       ("slot_JSON_format_version", JVal.str SLOT_VERSION_VALUE),
       ("slot", JVal.int 0),
       ("filename", JVal.null),
       ("length", JVal.int 0),
       ("date", JVal.null),
       ("SHA256", JVal.null),
       ("collected", JVal.bool false),
       ("status", JVal.str "slot is empty")] "filename" = some .null ∧
    getKey? [("no_comment", JVal.str NO_COMMENT_VALUE),
       ("slot_JSON_format_version", JVal.str SLOT_VERSION_VALUE),
       ("slot", JVal.int 0),
       ("filename", JVal.null),
       ("length", JVal.int 0),
       ("date", JVal.null),
       ("SHA256", JVal.null),
       ("collected", JVal.bool false),
       ("status", JVal.str "slot is empty")] "length" = some (.int 0) := by
  exact ⟨by decide, by decide, by decide⟩

/-- C6: on a password file that is present and nonempty but fails JSON
parsing, `read_pwfile` raises `json.JSONDecodeError` out of the store (its
`except` clause catches only `OSError`) instead of returning the `None`
sentinel, and correctly performs no template reseed; the contest-state read
of an equally invalid state file returns the `(None, None)` sentinel with no
reseed, as the claim describes. -/
theorem read_pwfile_raises_on_invalid :
    readPwfile ⟨.invalid, .wellFormed [], true, true, true⟩ = (.raises, false) ∧
    readState ⟨.invalid, .wellFormed [], true, true⟩ = (none, false) := by
  exact ⟨rfl, rfl⟩

/-- C7: a well-formed `stage.py` run (no `-t`, an existing slot directory
`.../alice/0`) crashes before printing any contract line — the stdout model
yields no line at all — because `main()` calls `check_username_arg(username)`
with one argument while the function requires two, raising `TypeError`; and
even the result-printing code it would reach renders the `stage_submit`
failure sentinel as `"None . 0"`, not `"exit.8 . 0"`, since the `exit.8`
substitution fires only for non-None non-string values. -/
theorem stage_cli_stdout_contract_bug :
    stageMainStdout ⟨false, true, true, "0", "alice"⟩ = none ∧
    stagePrintLine none "." 0 = "None . 0" ∧
    "None . 0" ≠ "exit.8 . 0" := by
  refine ⟨by decide, ?_, by decide⟩
  show "None" ++ " " ++ "." ++ " " ++ toString (0 : Int) = "None . 0"
  decide

/-- C8: password upsert is idempotent — for a username passing the firewall
and a fixed field tuple, a first successful `update_username` produces an
array that a second call with the same arguments maps to itself, so the
record for the username and the array length are unchanged by the second
call. -/
theorem update_username_idempotent (e1 e2 : PwWriteEnv) (u : String)
    (f : UserFields) (pw : List Dict)
    (hu : checkUsernameArg u = true)
    (he1 : e1.allOk = true) (he2 : e2.allOk = true)
    (hpw : pw ≠ []) :
    ∃ pw1, updateUsername e1 u f pw = some pw1 ∧
      updateUsername e2 u f pw1 = some pw1 := by
  refine ⟨upsertUser u f pw, ?_, ?_⟩
  · simp [updateUsername, hu, he1, List.isEmpty_iff, hpw]
  · simp [updateUsername, hu, he2, List.isEmpty_iff, upsertUser_ne_nil,
      upsertUser_idem]

/-- C8 witness: a concrete double upsert of user `a`. -/
theorem update_username_idempotent_witness :
    ∃ pw1,
      updateUsername ⟨true, true, true, true⟩ "a"
        ⟨"h", false, false, none, none, false⟩
        [[("username", JVal.str "a")]] = some pw1 ∧
      updateUsername ⟨true, true, true, true⟩ "a"
        ⟨"h", false, false, none, none, false⟩ pw1 = some pw1 :=
  update_username_idempotent ⟨true, true, true, true⟩ ⟨true, true, true, true⟩
    "a" ⟨"h", false, false, none, none, false⟩ [[("username", JVal.str "a")]]
    (by decide) (by decide) (by decide) (by decide)

/-- C9: when the slot's current record carries a `filename` value different
from the caller-supplied `submit_file`, `update_slot_status_if_submit`
returns `True` and writes nothing — the patch is silently dropped, not
reported as an error. -/
theorem update_slot_status_if_submit_drops (e : SlotPatchEnv) (u : String)
    (n : Int) (status submitFile : String) (d : Dict) (v : JVal)
    (hu : checkUsernameArg u = true) (hn : checkSlotNumArg n = true)
    (hlook : e.lookupOk = true) (hlock : e.lockOk = true)
    (hread : e.readDict = some d)
    (hf : getKey? d "filename" = some v) (hne : v ≠ .str submitFile) :
    updateSlotStatusIfSubmit e u n status submitFile = (true, none) := by
  have hdir := returnSlotDirPath_eq_some hu hn
  have hbeq : (v == JVal.str submitFile) = false := by
    simp [hne]
  unfold updateSlotStatusIfSubmit
  rw [hu, hn, hlook, hlock, hdir, hread]
  simp only [Bool.not_true, Bool.false_eq_true, if_false]
  rw [hf]
  dsimp only
  rw [hbeq]
  simp

/-- C9 witness: a stale patch against a slot now holding a different file. -/
theorem update_slot_status_if_submit_drops_witness :
    updateSlotStatusIfSubmit
      ⟨true, true, some [("filename", JVal.str "submit.a-0.1700000000999999.txz")], true⟩
      "a" 0 "collected" "submit.a-0.1700000000123456.txz" = (true, none) :=
  update_slot_status_if_submit_drops _ "a" 0 "collected"
    "submit.a-0.1700000000123456.txz"
    [("filename", JVal.str "submit.a-0.1700000000999999.txz")]
    (JVal.str "submit.a-0.1700000000999999.txz")
    (by decide) (by decide) rfl rfl rfl rfl (by decide)

/-- C10: a successful `update_slot_status` call forces `collected` to `True`
exactly when `set_collected_to_true` is passed or the prior record lacks the
`collected` key, and otherwise preserves the prior value — in particular it
never changes `collected` to `False`. -/
theorem update_slot_status_collected (e : SlotPatchEnv) (u : String) (n : Int)
    (status : String) (setC : Bool) (d : Dict)
    (hu : checkUsernameArg u = true) (hn : checkSlotNumArg n = true)
    (hlook : e.lookupOk = true) (hlock : e.lockOk = true)
    (hread : e.readDict = some d) (hw : e.writeOk = true) :
    ∃ d2, updateSlotStatus e u n status setC = (true, some d2) ∧
      getKey? d2 "collected" =
        (if setC || !hasKey d "collected" then some (.bool true)
         else getKey? d "collected") ∧
      (getKey? d2 "collected" = some (.bool false) →
        getKey? d "collected" = some (.bool false)) := by
  have hdir := returnSlotDirPath_eq_some hu hn
  have hkey : hasKey (setKey d "status" (.str status)) "collected"
      = hasKey d "collected" :=
    hasKey_setKey_ne d (by decide) _
  have hget : getKey? (setKey d "status" (.str status)) "collected"
      = getKey? d "collected" :=
    getKey_setKey_ne d (by decide) _
  refine ⟨if setC || !hasKey d "collected" then
            setKey (setKey d "status" (.str status)) "collected" (.bool true)
          else setKey d "status" (.str status), ?_, ?_, ?_⟩
  · unfold updateSlotStatus
    rw [hu, hn, hlook, hlock, hdir, hread, hw]
    simp only [Bool.not_true, Bool.false_eq_true, if_false, hkey]
  · by_cases hc : (setC || !hasKey d "collected") = true
    · rw [if_pos hc, if_pos hc, getKey_setKey_self]
    · rw [if_neg hc, if_neg hc, hget]
  · intro hfalse
    by_cases hc : (setC || !hasKey d "collected") = true
    · rw [if_pos hc, getKey_setKey_self] at hfalse
      simp at hfalse
    · rw [if_neg hc, hget] at hfalse
      exact hfalse

/-- C10 witness: with the flag off and `collected` present as `True`, the
prior value is preserved (never reset to `False`). -/
theorem update_slot_status_collected_witness :
    ∃ d2, updateSlotStatus
        ⟨true, true, some [("collected", JVal.bool true)], true⟩
        "a" 0 "new status" false = (true, some d2) ∧
      getKey? d2 "collected" =
        (if false || !hasKey [("collected", JVal.bool true)] "collected" then
          some (.bool true)
         else getKey? [("collected", JVal.bool true)] "collected") ∧
      (getKey? d2 "collected" = some (.bool false) →
        getKey? [("collected", JVal.bool true)] "collected"
          = some (.bool false)) :=
  update_slot_status_collected _ "a" 0 "new status" false
    [("collected", JVal.bool true)]
    (by decide) (by decide) rfl rfl rfl rfl

end IocccSubmit
